import Mathlib

/-!
Shallow embedding of `win-foreground-listener` (src/lib.rs): a Neon native
module that hooks the Windows foreground-change event, filters the native
event stream to window-class objects, and relays each window handle (as a
decimal string) to a JavaScript callback through a oneshot correlation
channel.

The embedding models:
- `WindowForegroundListener` with its `start`/`stop` lifecycle over an
  explicit `World` of spawned/aborted task ids;
- the body of the spawned task in `listen` as a trace-producing function
  over a finite list of native event records, with the host's behaviour for
  each callback invocation given by an environment `Nat → HostCall`;
- `JsCallback.call`: submission of a job to the Neon channel
  (`try_send`, result ignored) followed by awaiting the oneshot receiver.
-/

/-- Object-type tag carried by a native window event record
(`wineventhook::AccessibleObjectId`; the code only compares against
`Window`, the other variants are collapsed into representative
constructors plus a raw catch-all). -/
inductive AccessibleObjectId
  | Window
  | Cursor
  | Caret
  | SystemMenuBar
  | Other (raw : Int)
deriving DecidableEq, Repr

/-- A native window event record as consumed by the loop in `listen`:
`event.object_type()` and `event.window_handle()`.  The handle is the raw
pointer value of the `NonNull<c_void>` (`None` when the event carries a
null handle). -/
structure WindowEvent where
  object_type : AccessibleObjectId
  window_handle : Option Nat
deriving DecidableEq, Repr

/-- Two's-complement reinterpretation of a 64-bit pointer value as `isize`,
modelling the `as isize` cast in `listen`. -/
def toIsize (n : Nat) : Int :=
  let m : Nat := n % 2 ^ 64
  if m < 2 ^ 63 then (m : Int) else (m : Int) - 2 ^ 64

/-- The window-identifier string computed in `listen`:
`format!("{}", (event.window_handle().map_or_else(ptr::null_mut, NonNull::as_ptr)) as isize)`.
An absent handle becomes the null pointer, i.e. `0`. -/
def hwndString (h : Option Nat) : String :=
  toString (toIsize (h.getD 0))

/-- Value returned by the JavaScript callback, as seen by the job inside
`JsCallback::call`: either a JS string or any non-string value. -/
inductive JsValue
  | str (s : String)
  | nonStr
deriving DecidableEq, Repr

/-- The error of `tokio::sync::oneshot::error::RecvError`: the sender half
was dropped without sending a value. -/
inductive RecvError
  | closed
deriving DecidableEq, Repr

/-- `Result<String, RecvError>` as returned by `JsCallback::call`. -/
inductive CallResult
  | ok (v : String)
  | error (e : RecvError)
deriving DecidableEq, Repr

/-- The host side of one bridge call: whether `Channel::try_send` accepted
the submission, whether the host's event loop ever executed the submitted
job, and what the JavaScript callback returned if the job ran. -/
structure HostCall where
  submissionAccepted : Bool
  jobRuns : Bool
  callbackReturn : JsValue

/-- The job closure submitted by `JsCallback::call`: call the callback with
the string argument, then `downcast_or_throw::<JsString, _>` the returned
value.  A non-string return makes the downcast throw, so `tx` is dropped
without `tx.send` ever running; a string return is sent over the channel. -/
def callbackJob (ret : JsValue) : Option String :=
  match ret with
  | JsValue.str s => some s
  | JsValue.nonStr => none

/-- `JsCallback::call`: create a oneshot channel, `try_send` the job to the
Neon channel with the result of the submission discarded
(`let _ = self.channel.try_send(...)`), then `rx.await`.  The receiver
yields the sent value when the job ran to `tx.send`, and `RecvError`
whenever the sender half was dropped without a value: submission rejected,
job never executed, or callback threw / returned a non-string. -/
def JsCallback.call (name : String) (h : HostCall) : CallResult :=
  let sent : Option String :=
    if h.submissionAccepted && h.jobRuns then callbackJob h.callbackReturn else none
  match sent with
  | some v => CallResult.ok v
  | none => CallResult.error RecvError.closed

/-- Observable actions of the subscription task, in order of occurrence:
submitting a callback invocation to the bridge, observing the bridge call
resolve, reporting a failed delivery (`println!("Failed to call ...")`),
and unregistering the native hook at the end (`hook.unhook()`). -/
inductive TaskAction
  | submit (arg : String)
  | resolve (result : CallResult)
  | report (err : RecvError)
  | unhook (ok : Bool)
deriving DecidableEq, Repr

/-- The `match result` at the end of the loop body: a failed bridge call is
reported, a successful one produces no action. -/
def reportActions : CallResult → List TaskAction
  | CallResult.ok _ => []
  | CallResult.error err => [TaskAction.report err]

/-- The `while let Some(event) = event_rx.recv().await` loop of `listen`,
run against a finite stream `events` (the stream is exhausted when the list
ends) with the host's behaviour for the k-th callback invocation given by
`host k`.  A record whose object type is `Window` produces a bridge call
(submit, then resolve, then a report when delivery failed) and processing
continues with the next record; any other record produces nothing. -/
def listenTrace (host : Nat → HostCall) : List WindowEvent → Nat → List TaskAction
  | [], _ => []
  | e :: rest, k =>
    if e.object_type = AccessibleObjectId.Window then
      let arg := hwndString e.window_handle
      let result := JsCallback.call arg (host k)
      TaskAction.submit arg :: TaskAction.resolve result ::
        (reportActions result ++ listenTrace host rest (k + 1))
    else
      listenTrace host rest k

/-- `EVENT_SYSTEM_FOREGROUND` (`raw_event::SYSTEM_FOREGROUND`). -/
def SYSTEM_FOREGROUND : Nat := 3

/-- The `wineventhook::EventFilter` value built in `listen`: which raw
event it is restricted to (`none` = all events, the default) and the
optional process restriction. -/
structure EventFilter where
  event : Option Nat
  process : Option Nat
deriving DecidableEq, Repr

/-- `EventFilter::default()`: no event restriction, no process
restriction. -/
def EventFilter.default : EventFilter :=
  { event := none, process := none }

/-- `NonZeroU32::new`: `none` exactly when the value is zero. -/
def NonZeroU32.new (n : Nat) : Option Nat :=
  if n = 0 then none else some n

/-- The filter construction at the top of `listen`:
`EventFilter::default().event(raw_event::SYSTEM_FOREGROUND)`, then
`.process(pid)` only when `NonZeroU32::new(pid)` is `Some`. -/
def buildFilter (pid : Nat) : EventFilter :=
  let filter := { EventFilter.default with event := some SYSTEM_FOREGROUND }
  match NonZeroU32.new pid with
  | some p => { filter with process := some p }
  | none => filter

/-- How one whole run of the spawned task ends. -/
inductive TaskEnd
  | terminated
  | unhookPanic
  | hookPanic
deriving DecidableEq, Repr

/-- The asynchronous environment a spawned task runs against: whether
`WindowEventHook::hook(...).await.unwrap()` succeeds, whether
`hook.unhook().await.unwrap()` succeeds, the host's behaviour per callback
invocation, and the finite contents of the native event stream. -/
structure TaskEnv where
  hookOk : Bool
  unhookOk : Bool
  host : Nat → HostCall
  events : List WindowEvent

/-- One whole run of the async block spawned by `listen`: the filter it
registers, the trace of observable actions, and how it ends. -/
structure TaskRun where
  filter : EventFilter
  trace : List TaskAction
  ending : TaskEnd

/-- The async block spawned by `listen`, run to completion against `env`:
build the filter, register the hook (`unwrap` panics the task on
registration failure, before any event is processed), run the receive loop
until the stream is exhausted, then `hook.unhook().await.unwrap()` (a
failure there panics the task after the loop). -/
def listenTask (pid : Nat) (env : TaskEnv) : TaskRun :=
  let filter := buildFilter pid
  if env.hookOk then
    { filter := filter
      trace := listenTrace env.host env.events 0 ++ [TaskAction.unhook env.unhookOk]
      ending := if env.unhookOk then TaskEnd.terminated else TaskEnd.unhookPanic }
  else
    { filter := filter, trace := [], ending := TaskEnd.hookPanic }

/-- The listener object: `join_handle: Option<JoinHandle<()>>`, with the
handle modelled as the spawned task's id. -/
structure WindowForegroundListener where
  join_handle : Option Nat
deriving DecidableEq, Repr

/-- Ambient bookkeeping of the tokio runtime: the next fresh task id, the
ids on which `JoinHandle::abort` has been called, and the spawn log
(task id together with the pid the task was spawned with, newest first). -/
structure World where
  nextId : Nat
  aborted : List Nat
  spawned : List (Nat × Nat)
deriving DecidableEq, Repr

/-- `listen(rt, pid, js_callback)`: `rt.spawn(async move { ... })` returns
the fresh `JoinHandle` immediately; nothing of the task body (and so
nothing of `env`, which the body consumes only once scheduled — see
`listenTask`) runs before `listen` returns. -/
def listen (w : World) (pid : Nat) (env : TaskEnv) : Nat × World :=
  (w.nextId,
   { w with nextId := w.nextId + 1, spawned := (w.nextId, pid) :: w.spawned })

/-- `WindowForegroundListener::stop`: if a join handle is held, abort it
and clear the field; otherwise do nothing. -/
def WindowForegroundListener.stop (l : WindowForegroundListener) (w : World) :
    WindowForegroundListener × World :=
  match l.join_handle with
  | some h => ({ join_handle := none }, { w with aborted := h :: w.aborted })
  | none => (l, w)

/-- `WindowForegroundListener::start`: `self.stop()` first, then spawn the
new task via `listen` and store its handle. -/
def WindowForegroundListener.start (l : WindowForegroundListener) (w : World)
    (pid : Nat) (env : TaskEnv) : WindowForegroundListener × World :=
  let sw := WindowForegroundListener.stop l w
  let hw := listen sw.2 pid env
  ({ join_handle := some hw.1 }, hw.2)

/-- The argument of a `submit` action, `none` for every other action. -/
def TaskAction.submitArg : TaskAction → Option String
  | TaskAction.submit a => some a
  | _ => none

/-- The sequence of callback-invocation arguments occurring in a trace, in
order. -/
def submitArgs (tr : List TaskAction) : List String :=
  tr.filterMap TaskAction.submitArg

/-- A trace is serialized when it is a sequence of complete
submit/resolve(/report on failure) rounds: no submission occurs before the
previous bridge call has resolved, and every failed resolution is followed
by its report before anything else happens. -/
inductive Serialized : List TaskAction → Prop
  | nil : Serialized []
  | okPair (a v : String) (tl : List TaskAction) : Serialized tl →
      Serialized (TaskAction.submit a :: TaskAction.resolve (CallResult.ok v) :: tl)
  | errPair (a : String) (e : RecvError) (tl : List TaskAction) : Serialized tl →
      Serialized (TaskAction.submit a :: TaskAction.resolve (CallResult.error e) ::
        TaskAction.report e :: tl)

/-- `host`, with the k-th bridge call's correlation channel force-closed
without a reply (submission dropped before the job could run). -/
def failingAt (host : Nat → HostCall) (k : Nat) : Nat → HostCall :=
  fun j =>
    if j = k then
      { submissionAccepted := false, jobRuns := false,
        callbackReturn := JsValue.str "" }
    else host j

/-- A benign host used to instantiate universally quantified statements on
concrete inputs: every submission is accepted, every job runs, every
callback returns the string "r". -/
def host0 : Nat → HostCall :=
  fun _ =>
    { submissionAccepted := true, jobRuns := true,
      callbackReturn := JsValue.str "r" }

/-- `host`, with the k-th bridge call's callback returning a non-string
value (so the downcast in the job throws before `tx.send`). -/
def nonStrAt (host : Nat → HostCall) (k : Nat) : Nat → HostCall :=
  fun j => if j = k then ⟨true, true, JsValue.nonStr⟩ else host j

/-- The submit arguments of a loop trace are exactly the identifier strings
of the window-type records, in stream order, independently of the host's
behaviour and of the invocation counter. -/
theorem listenTrace_submitArgs (host : Nat → HostCall) (events : List WindowEvent) :
    ∀ k : Nat, submitArgs (listenTrace host events k) =
      (events.filter fun e => e.object_type = AccessibleObjectId.Window).map
        (fun e => hwndString e.window_handle) := by
  induction events with
  | nil => intro k; rfl
  | cons e rest ih =>
    intro k
    have ih1 := ih (k + 1)
    have ih2 := ih k
    simp only [submitArgs] at ih1 ih2
    by_cases he : e.object_type = AccessibleObjectId.Window
    · cases hr : JsCallback.call (hwndString e.window_handle) (host k) with
      | ok v =>
        simp [listenTrace, he, hr, submitArgs, reportActions,
          TaskAction.submitArg, List.filter_cons, ih1]
      | error err =>
        simp [listenTrace, he, hr, submitArgs, reportActions,
          TaskAction.submitArg, List.filter_cons, ih1]
    · simp [listenTrace, he, submitArgs, List.filter_cons, ih2]

/-- Every loop trace is a sequence of complete submit/resolve rounds. -/
theorem listenTrace_serialized (host : Nat → HostCall) (events : List WindowEvent) :
    ∀ k : Nat, Serialized (listenTrace host events k) := by
  induction events with
  | nil => intro k; exact Serialized.nil
  | cons e rest ih =>
    intro k
    by_cases he : e.object_type = AccessibleObjectId.Window
    · cases hr : JsCallback.call (hwndString e.window_handle) (host k) with
      | ok v =>
        have h1 := Serialized.okPair (hwndString e.window_handle) v
          (listenTrace host rest (k + 1)) (ih (k + 1))
        simpa [listenTrace, he, hr, reportActions] using h1
      | error err =>
        have h1 := Serialized.errPair (hwndString e.window_handle) err
          (listenTrace host rest (k + 1)) (ih (k + 1))
        simpa [listenTrace, he, hr, reportActions] using h1
    · simpa [listenTrace, he] using ih k

/-- C1: after any `start` the listener holds exactly the newly spawned task
handle, the previously held task (if any) was aborted in the `stop` phase
that runs before the new task is allocated, after any `stop` the listener
holds no handle, and `stop` with no active task leaves listener and world
unchanged. -/
theorem C1_lifecycle_exclusivity :
    ∀ (l : WindowForegroundListener) (w : World) (pid : Nat) (env : TaskEnv)
      (h : Nat),
    (WindowForegroundListener.start l w pid env).1.join_handle =
        some ((WindowForegroundListener.stop l w).2.nextId) ∧
    (WindowForegroundListener.start l w pid env).2.spawned.head? =
        some ((WindowForegroundListener.stop l w).2.nextId, pid) ∧
    (WindowForegroundListener.stop ⟨some h⟩ w).2.aborted = h :: w.aborted ∧
    (WindowForegroundListener.start ⟨some h⟩ w pid env).2.aborted =
        h :: w.aborted ∧
    (WindowForegroundListener.stop (WindowForegroundListener.start l w pid env).1
        (WindowForegroundListener.start l w pid env).2).1.join_handle = none ∧
    WindowForegroundListener.stop ⟨none⟩ w = (⟨none⟩, w) := by
  intro l w pid env h
  exact ⟨rfl, rfl, rfl, rfl, rfl, rfl⟩

/-- C2: for every finite stream, the callback invocations of the loop are
exactly the identifiers of the window-type records in stream order, and the
trace is serialized: no invocation is submitted before the previous bridge
call has resolved. -/
theorem C2_event_order_serialized :
    ∀ (host : Nat → HostCall) (events : List WindowEvent) (k : Nat),
    submitArgs (listenTrace host events k) =
      (events.filter fun e => e.object_type = AccessibleObjectId.Window).map
        (fun e => hwndString e.window_handle) ∧
    Serialized (listenTrace host events k) :=
  fun host events k =>
    ⟨listenTrace_submitArgs host events k, listenTrace_serialized host events k⟩

/-- C3: the identifier handed to the bridge is the native handle cast to
`isize` and rendered as decimal text: handle 12345 yields "12345", an
absent handle yields the sentinel "0", and a handle in the upper half of
the address space renders as a negative number. -/
theorem C3_identifier_rendering :
    ∀ (host : Nat → HostCall) (rest : List WindowEvent) (k : Nat),
    (listenTrace host (⟨AccessibleObjectId.Window, some 12345⟩ :: rest)
        k).head? = some (TaskAction.submit "12345") ∧
    (listenTrace host (⟨AccessibleObjectId.Window, none⟩ :: rest)
        k).head? = some (TaskAction.submit "0") ∧
    (listenTrace host (⟨AccessibleObjectId.Window, some (2 ^ 64 - 1)⟩ :: rest)
        k).head? = some (TaskAction.submit "-1") := by
  intro host rest k
  refine ⟨?_, ?_, ?_⟩ <;> simp [listenTrace] <;> decide

/-- C4: a record whose object type is not `Window` produces no action at
all: the loop trace is the same as if the record were absent. -/
theorem C4_nonwindow_filtered :
    ∀ (host : Nat → HostCall) (k : Nat) (e : WindowEvent)
      (rest : List WindowEvent),
    e.object_type ≠ AccessibleObjectId.Window →
    listenTrace host (e :: rest) k = listenTrace host rest k := by
  intro host k e rest he
  simp [listenTrace, he]

/-- C4 witness: a concrete non-window record (cursor, handle 7) is dropped
silently. -/
theorem C4_nonwindow_filtered_witness :
    (⟨AccessibleObjectId.Cursor, some 7⟩ :
        WindowEvent).object_type ≠ AccessibleObjectId.Window ∧
    listenTrace host0 [⟨AccessibleObjectId.Cursor, some 7⟩] 0 =
      listenTrace host0 [] 0 :=
  ⟨by decide,
   C4_nonwindow_filtered host0 0 ⟨AccessibleObjectId.Cursor, some 7⟩ []
     (by decide)⟩

/-- C5: a bridge call whose correlation channel closes without a reply is
resolved as a failure, reported, and the loop continues with the next
record; the sequence of invocations is the same under any host behaviour,
and how the task ends does not depend on delivery outcomes. -/
theorem C5_delivery_failure_resilience :
    ∀ (host host2 : Nat → HostCall) (k : Nat) (h : Option Nat)
      (rest events : List WindowEvent) (pid : Nat) (u : Bool),
    listenTrace (failingAt host k)
        (⟨AccessibleObjectId.Window, h⟩ :: rest) k =
      TaskAction.submit (hwndString h) ::
        TaskAction.resolve (CallResult.error RecvError.closed) ::
        TaskAction.report RecvError.closed ::
        listenTrace (failingAt host k) rest (k + 1) ∧
    submitArgs (listenTrace host events k) =
        submitArgs (listenTrace host2 events k) ∧
    (listenTask pid ⟨true, u, failingAt host k, events⟩).ending =
      (listenTask pid ⟨true, u, host, events⟩).ending := by
  intro host host2 k h rest events pid u
  refine ⟨?_, ?_, rfl⟩
  · simp [listenTrace, failingAt, JsCallback.call, reportActions]
  · rw [listenTrace_submitArgs, listenTrace_submitArgs]

/-- C6: a rejected submission still resolves through the correlation
channel and yields the same delivery failure as a job that never ran; a job
that never runs yields a delivery failure rather than a hang (the call is a
total function into `CallResult`); a string reply is returned intact. -/
theorem C6_bridge_failure_paths :
    ∀ (name : String) (jobRuns : Bool) (ret : JsValue),
    JsCallback.call name ⟨false, jobRuns, ret⟩ =
      CallResult.error RecvError.closed ∧
    JsCallback.call name ⟨true, false, ret⟩ =
      CallResult.error RecvError.closed ∧
    JsCallback.call name ⟨false, jobRuns, ret⟩ =
      JsCallback.call name ⟨true, false, ret⟩ ∧
    JsCallback.call name ⟨true, true, JsValue.str "v"⟩ = CallResult.ok "v" := by
  intro name jobRuns ret
  exact ⟨rfl, rfl, rfl, rfl⟩

/-- C7: when the stream is exhausted the task leaves the loop and only then
unregisters the hook (the unhook action is the last of the trace); an
unhook failure ends the task in a panic, and it does not change the
invocations already delivered. -/
theorem C7_stream_exhaustion_unhook :
    ∀ (pid : Nat) (u : Bool) (host : Nat → HostCall)
      (events : List WindowEvent),
    (listenTask pid ⟨true, u, host, events⟩).trace =
      listenTrace host events 0 ++ [TaskAction.unhook u] ∧
    (listenTask pid ⟨true, u, host, events⟩).ending =
      (if u then TaskEnd.terminated else TaskEnd.unhookPanic) ∧
    submitArgs (listenTask pid ⟨true, false, host, events⟩).trace =
      submitArgs (listenTask pid ⟨true, true, host, events⟩).trace ∧
    (listenTask pid ⟨true, false, host, events⟩).ending =
      TaskEnd.unhookPanic := by
  intro pid u host events
  refine ⟨rfl, rfl, ?_, rfl⟩
  simp [listenTask, submitArgs, List.filterMap_append, TaskAction.submitArg]

/-- C8: a zero pid puts no process restriction on the filter passed to
registration; a positive pid is carried verbatim as the restriction; the
filter is always restricted to the foreground-change event. -/
theorem C8_process_scope_filter :
    ∀ (pid : Nat) (env : TaskEnv),
    (buildFilter 0).process = none ∧
    (buildFilter (pid + 1)).process = some (pid + 1) ∧
    (buildFilter pid).event = some SYSTEM_FOREGROUND ∧
    (listenTask 0 env).filter.process = none ∧
    (listenTask (pid + 1) env).filter.process = some (pid + 1) := by
  intro pid env
  refine ⟨rfl, rfl, ?_, ?_, ?_⟩
  · cases pid with
    | zero => rfl
    | succ n => rfl
  · rcases env with ⟨hookOk, u, host, evs⟩
    cases hookOk <;> rfl
  · rcases env with ⟨hookOk, u, host, evs⟩
    cases hookOk <;> rfl

/-- C9: `start` is a total operation whose synchronous result does not
depend on anything that can fail asynchronously (registration, unhooking,
host behaviour, stream contents), and it always completes holding the new
task handle; a registration failure surfaces only inside the spawned task,
which panics before producing any action. -/
theorem C9_start_never_fails :
    ∀ (l : WindowForegroundListener) (w : World) (pid : Nat)
      (env env' : TaskEnv),
    WindowForegroundListener.start l w pid env =
      WindowForegroundListener.start l w pid env' ∧
    ((WindowForegroundListener.start l w pid env).1.join_handle).isSome =
      true ∧
    (listenTask pid ⟨false, env.unhookOk, env.host, env.events⟩).ending =
      TaskEnd.hookPanic ∧
    (listenTask pid ⟨false, env.unhookOk, env.host, env.events⟩).trace =
      [] := by
  intro l w pid env env'
  exact ⟨rfl, rfl, rfl, rfl⟩

/-- C10: a callback returning a non-string value makes the job throw before
any reply is sent, so the bridge call resolves as a delivery failure, and
the loop reports it and continues with the next record. -/
theorem C10_nonstring_return_failure :
    ∀ (host : Nat → HostCall) (h : Option Nat) (rest : List WindowEvent)
      (k : Nat),
    JsCallback.call (hwndString h) ⟨true, true, JsValue.nonStr⟩ =
      CallResult.error RecvError.closed ∧
    listenTrace (nonStrAt host k)
        (⟨AccessibleObjectId.Window, h⟩ :: rest) k =
      TaskAction.submit (hwndString h) ::
        TaskAction.resolve (CallResult.error RecvError.closed) ::
        TaskAction.report RecvError.closed ::
        listenTrace (nonStrAt host k) rest (k + 1) := by
  intro host h rest k
  refine ⟨rfl, ?_⟩
  simp [listenTrace, nonStrAt, JsCallback.call, callbackJob, reportActions]
